import Mathlib

/-!
Verification of the multi-agent invoice-orchestration core of lector-fc.

The definitions below are a shallow embedding of the TypeScript source:
`OrchestratedDocumentProcessor` (consolidation, confidence scoring, the
three iteration stages and their continuation decisions, the per-agent
invocation result shapes including all failure branches) and
`AgentManager.recordAgentExecution` (per-agent running metrics).

Modelling conventions:
- JavaScript values stored in an `extractedData` record are modelled by
  `Value` (null, undefined, boolean, number, string, array, object).
  JSON numbers are modelled as integers: every value the claims quantify
  over (confidence scores, weights, counts) is integral, and the record
  operations only test values for truthiness/emptiness, never compute on
  them.  Where the metrics code divides (running averages), the JS
  double is idealised as an exact rational (`ℚ`).
- A JS object is an insertion-ordered association list
  (`List (String × Value)`); `Object.entries` iterates in list order and
  assigning to an existing key keeps its position, which `setField`
  mirrors.
- Each LLM-backed agent call is nondeterministic IO; its observable
  outcome is abstracted as `Outcome`: either the backend call (or the
  content-block check) raised, or it returned response text `raw` whose
  JSON parse after markdown-fence stripping is `parse` (`none` when the
  text is not valid JSON).  Everything after that point is the pure code
  being verified.
- Debug-only fields of the source records (`rawResponse`,
  `processingTime`, `systemPrompt`, `userPrompt`, `suggestions`,
  timestamps) carry no control flow and are omitted.
-/

/-- A JavaScript value as it can appear in an `extractedData` record
(`Record<string, any>` in the source). Numbers are modelled as integers,
see the file header. -/
inductive Value where
  | vNull : Value
  | vUndefined : Value
  | vBool (b : Bool) : Value
  | vNum (n : Int) : Value
  | vStr (s : String) : Value
  | vList (xs : List Value) : Value
  | vObj (fields : List (String × Value)) : Value

/-- A JS object: insertion-ordered association list from field name to value. -/
abbrev RecordV := List (String × Value)

/-- `m[k]` — first (and, for objects, only) binding of key `k`. -/
def lookupField : RecordV → String → Option Value
  | [], _ => none
  | (k', v') :: rest, k => if k' = k then some v' else lookupField rest k

/-- `m[k] = v` — update an existing key in place, else append (JS object
assignment order semantics). -/
def setField : RecordV → String → Value → RecordV
  | [], k, v => [(k, v)]
  | (k', v') :: rest, k, v =>
      if k' = k then (k, v) :: rest else (k', v') :: setField rest k v

/-- JS truthiness of a value: `null`, `undefined`, `false`, `0` and `""`
are falsy; every other value (including empty arrays and objects) is
truthy. -/
def jsTruthy : Value → Bool
  | .vNull => false
  | .vUndefined => false
  | .vBool b => b
  | .vNum n => n != 0
  | .vStr s => s != ""
  | .vList _ => true
  | .vObj _ => true

/-- The merge guard of `consolidateAgentResults` (part_003 line 1131):
`value !== null && value !== undefined && value !== ''`. -/
def isMergeable : Value → Bool
  | .vNull => false
  | .vUndefined => false
  | .vStr s => s != ""
  | _ => true

/-- `!!consolidated[key]` — truthiness of a field lookup; an absent key is
`undefined`, hence falsy. -/
def truthyAt (m : RecordV) (k : String) : Bool :=
  match lookupField m k with
  | some v => jsTruthy v
  | none => false

/-- One agent invocation result (source interface `AgentResult`,
part_003 lines 28-39), keeping the fields the control flow reads. -/
structure AgentResult where
  agentName : String
  extractedData : RecordV
  confidence : Int
  specialization : List String
  conflicts : Option (List String)

/-- Inner loop body of `consolidateAgentResults` (part_003 lines
1130-1137): a single `[key, value]` entry of one result's
`extractedData` is folded into the running mapping.  The overwrite
condition is literally `!consolidated[key] || result.confidence > 75`. -/
def mergeEntry (conf : Int) (m : RecordV) (kv : String × Value) : RecordV :=
  if isMergeable kv.2 then
    if truthyAt m kv.1 = false ∨ 75 < conf then setField m kv.1 kv.2 else m
  else m

/-- Folding one whole `AgentResult` into the running mapping (outer loop
body of `consolidateAgentResults`). -/
def mergeResult (m : RecordV) (r : AgentResult) : RecordV :=
  r.extractedData.foldl (mergeEntry r.confidence) m

/-- `consolidateAgentResults` (part_003 lines 1126-1141): fold every
agent result, in list order, into one consolidated mapping starting from
the empty object. -/
def consolidateAgentResults (agentResults : List AgentResult) : RecordV :=
  agentResults.foldl mergeResult []

/-- `weightedSum` accumulator of `calculateOverallConfidence` (part_003
lines 1146-1148): `sum + result.confidence * result.specialization.length`. -/
def weightedSum (agentResults : List AgentResult) : Int :=
  agentResults.foldl (fun s r => s + r.confidence * (r.specialization.length : Int)) 0

/-- `totalWeight` accumulator of `calculateOverallConfidence` (part_003
lines 1150-1152): `sum + result.specialization.length`. -/
def totalWeight (agentResults : List AgentResult) : Nat :=
  agentResults.foldl (fun s r => s + r.specialization.length) 0

/-- `Math.round(a / b)` for an integer numerator and natural denominator:
JS `Math.round` is round-half-toward-plus-infinity, i.e.
`⌊a/b + 1/2⌋ = ⌊(2a+b)/(2b)⌋`, computed here with flooring integer
division. -/
def mathRound (a : Int) (b : Nat) : Int :=
  Int.fdiv (2 * a + b) (2 * b)

/-- `calculateOverallConfidence` (part_003 lines 1143-1155): 0 for an
empty list, else the specialization-count-weighted mean of the agents'
confidences, rounded with `Math.round`. -/
def calculateOverallConfidence (agentResults : List AgentResult) : Int :=
  match agentResults with
  | [] => 0
  | _ => mathRound (weightedSum agentResults) (totalWeight agentResults)

/-- `hasConflicts` (part_003 lines 1157-1159): some result has a
non-empty `conflicts` list. -/
def hasConflicts (agentResults : List AgentResult) : Bool :=
  agentResults.any fun r =>
    match r.conflicts with
    | some cs => cs.length != 0
    | none => false

/-- `identifyConflicts` (part_003 lines 1161-1168): the source body only
declares an empty array and returns it — no conflicts are ever
identified. -/
def identifyConflicts (_ : List AgentResult) : List String :=
  []

/-- The fixed critical-field list of `hasSignificantUncertainty`
(part_003 line 1172). -/
def criticalFields : List String :=
  ["totalAmount", "invoiceNumber", "providerName", "customerName"]

/-- `hasSignificantUncertainty` (part_003 lines 1170-1175):
`criticalFields.some(field => !data[field] || data[field] === null)`;
`null` is falsy, so the disjunct collapses to non-truthiness. -/
def hasSignificantUncertainty (data : RecordV) : Bool :=
  criticalFields.any fun field => truthyAt data field = false

/-- Observable outcome of one completion-backend call: `err` when the
call (or the text-block check) raised; `ok parse raw` when it returned
text `raw`, with `parse` the JSON value obtained after markdown-fence
stripping (`none` when the text does not parse). -/
inductive Outcome where
  | err : Outcome
  | ok (parse : Option RecordV) (raw : String) : Outcome

/-- The error-marked object built by `cleanAnthropicResponse` on a JSON
parse failure (part_003 line 122). -/
def errorRecord (cleanText : String) : RecordV :=
  [("error", Value.vStr "Failed to parse JSON"), ("rawResponse", Value.vStr cleanText)]

/-- `cleanAnthropicResponse` (part_003 lines 110-124) at the
post-fence-stripping level: the parsed JSON object when the text parses,
else the error-marked record — the parse exception is caught inside and
never propagated. -/
def cleanAnthropicResponse (parse : Option RecordV) (cleanText : String) : RecordV :=
  match parse with
  | some r => r
  | none => errorRecord cleanText

/-- `result.confidence || dflt`: the parsed response's own claimed
confidence when it is a nonzero number, else the agent's default.
(A non-numeric truthy `confidence` would poison later arithmetic with
`NaN` in JS; the claims only concern numeric or absent confidences, and
the model maps the remaining cases to the default.) -/
def confOrDefault (r : RecordV) (dflt : Int) : Int :=
  match lookupField r "confidence" with
  | some (.vNum n) => if n = 0 then dflt else n
  | _ => dflt

/-- `runClassificationAgent` (part_003 lines 361-534).  Success path:
`extractedData` is the cleaned response, confidence is
`result.confidence || 75`, specializations from the agent catalog.
Failure path (catch block, lines 515-533): fixed confidence 30, a
two-field `unknown` placeholder record, and a conflict marker. -/
def runClassificationAgent (o : Outcome) : AgentResult :=
  match o with
  | .ok parse raw =>
      let result := cleanAnthropicResponse parse raw
      { agentName := "classification_agent"
        extractedData := result
        confidence := confOrDefault result 75
        specialization := ["document_type", "origin_detection", "currency_detection"]
        conflicts := none }
  | .err =>
      { agentName := "classification_agent"
        extractedData := [("documentType", Value.vStr "unknown"),
                          ("documentOrigin", Value.vStr "unknown")]
        confidence := 30
        specialization := ["document_type", "origin_detection", "currency_detection"]
        conflicts := some ["Classification failed"] }

/-- `runStructuralExtractionAgent` (part_003 lines 540-734).  This agent
parses with a bare `JSON.parse`, so a malformed response throws and
lands in the catch block like a backend failure; a successful parse gets
confidence 90 for PDFs and 40 otherwise (line 708). -/
def runStructuralExtractionAgent (o : Outcome) (isPdf : Bool) : AgentResult :=
  match o with
  | .ok (some r) _ =>
      { agentName := "structural_extraction_agent"
        extractedData := r
        confidence := if isPdf then 90 else 40
        specialization := ["basic_fields", "amounts", "dates", "parties"]
        conflicts := none }
  | _ =>
      { agentName := "structural_extraction_agent"
        extractedData := []
        confidence := 40
        specialization := ["basic_fields"]
        conflicts := some ["Structural extraction failed"] }

/-- Char-list helper for JS `String.prototype.includes`: does `l` start
with `pat`? -/
def charsStartWith : List Char → List Char → Bool
  | _, [] => true
  | [], _ :: _ => false
  | c :: cs, p :: ps => c == p && charsStartWith cs ps

/-- Char-list helper for JS `String.prototype.includes`: does `pat`
occur somewhere in `l`? -/
def charsContain (l pat : List Char) : Bool :=
  match l with
  | [] => pat.isEmpty
  | _ :: rest => charsStartWith l pat || charsContain rest pat

/-- JS `s.includes(pat)`. -/
def includesSub (s pat : String) : Bool :=
  charsContain s.data pat.data

/-- `runMetadataAgent` (part_003 lines 739-762): a pure
filename-heuristic agent, fixed confidence 60, no LLM call. -/
def runMetadataAgent (fileName : String) : AgentResult :=
  let inferredData : RecordV :=
    if includesSub fileName "1A3938" || includesSub fileName "factura" then
      [("documentOrigin", Value.vStr "argentina"), ("documentType", Value.vStr "factura_a")]
    else if includesSub fileName "freight" || includesSub fileName "Baires" then
      [("documentOrigin", Value.vStr "international"),
       ("documentType", Value.vStr "international_invoice")]
    else []
  { agentName := "metadata_agent"
    extractedData := inferredData
    confidence := 60
    specialization := ["file_analysis", "context_inference"]
    conflicts := none }

/-- One pipeline pass (source interface `IterationResult`, part_003
lines 41-51), keeping the fields the control flow reads. -/
structure IterationResult where
  iterationNumber : Nat
  agentResults : List AgentResult
  consolidatedData : RecordV
  overallConfidence : Int
  requiresNextIteration : Bool

/-- `runArgentineFiscalAgent` (part_003 lines 767-856).  The prior
iteration only feeds the prompt text, not the result shape.  Success:
confidence `result.confidence || 90`; failure: fixed confidence 50,
empty data, conflict marker. -/
def runArgentineFiscalAgent (o : Outcome) (_context : IterationResult) : AgentResult :=
  match o with
  | .ok parse raw =>
      let result := cleanAnthropicResponse parse raw
      { agentName := "argentina_fiscal_agent"
        extractedData := result
        confidence := confOrDefault result 90
        specialization := ["cuit", "cae", "iva_breakdown", "condicion_fiscal"]
        conflicts := none }
  | .err =>
      { agentName := "argentina_fiscal_agent"
        extractedData := []
        confidence := 50
        specialization := ["cuit", "cae", "iva_breakdown", "condicion_fiscal"]
        conflicts := some ["Fiscal validation failed"] }

/-- `runInternationalTradeAgent` (part_003 lines 861-981).  Success:
confidence `result.confidence || 88`; failure: fixed confidence 45,
empty data, conflict marker. -/
def runInternationalTradeAgent (o : Outcome) (_context : IterationResult) : AgentResult :=
  match o with
  | .ok parse raw =>
      let result := cleanAnthropicResponse parse raw
      { agentName := "international_trade_agent"
        extractedData := result
        confidence := confOrDefault result 88
        specialization := ["international_trade", "hs_codes", "incoterms", "banking",
                           "ein_detection", "line_items", "observations"]
        conflicts := none }
  | .err =>
      { agentName := "international_trade_agent"
        extractedData := []
        confidence := 45
        specialization := ["international_trade", "hs_codes", "incoterms", "banking",
                           "ein_detection", "line_items", "observations"]
        conflicts := some ["Trade data extraction failed"] }

/-- `runConflictResolutionAgent` (part_003 lines 986-1037).  Success:
fixed confidence 95; failure: fixed confidence 60, empty data, conflict
marker. -/
def runConflictResolutionAgent (o : Outcome) (_context : IterationResult)
    (_conflicts : List String) : AgentResult :=
  match o with
  | .ok parse raw =>
      { agentName := "conflict_resolution_agent"
        extractedData := cleanAnthropicResponse parse raw
        confidence := 95
        specialization := ["conflict_resolution", "data_validation", "consensus_building"]
        conflicts := none }
  | .err =>
      { agentName := "conflict_resolution_agent"
        extractedData := []
        confidence := 60
        specialization := ["conflict_resolution"]
        conflicts := some ["Conflict resolution failed"] }

/-- `result.finalOptimizedData || result` (part_003 line 1097): the
nested optimized object when present and truthy, else the whole parsed
response.  A truthy non-object value has no string-keyed enumerable
entries and is modelled as the empty record. -/
def crossValidationData (result : RecordV) : RecordV :=
  match lookupField result "finalOptimizedData" with
  | some (.vObj r) => r
  | some v => if jsTruthy v then [] else result
  | none => result

/-- `runCrossValidationAgent` (part_003 lines 1042-1122).  Success:
`extractedData` is `result.finalOptimizedData || result` and confidence
`result.confidence || 98`.  Failure (catch block, lines 1106-1121):
confidence 80 and `extractedData` is the WHOLE prior consolidated
mapping (`context.consolidatedData`). -/
def runCrossValidationAgent (o : Outcome) (context : IterationResult) : AgentResult :=
  match o with
  | .ok parse raw =>
      let result := cleanAnthropicResponse parse raw
      { agentName := "cross_validation_agent"
        extractedData := crossValidationData result
        confidence := confOrDefault result 98
        specialization := ["mathematical_validation", "logical_coherence", "cross_reference"]
        conflicts := none }
  | .err =>
      { agentName := "cross_validation_agent"
        extractedData := context.consolidatedData
        confidence := 80
        specialization := ["mathematical_validation", "logical_coherence", "cross_reference"]
        conflicts := some ["Final validation had issues but data preserved"] }

/-- `runIteration1_BaseAnalysis` (part_003 lines 237-278): the three
base agents (classification, structural extraction, metadata) run in
parallel; their results are consolidated and the stage records
`requiresNextIteration = overallConfidence < 85 || hasConflicts`. -/
def runIteration1_BaseAnalysis (o1 o2 : Outcome) (fileName : String) (isPdf : Bool) :
    IterationResult :=
  let agentResults := [runClassificationAgent o1,
                       runStructuralExtractionAgent o2 isPdf,
                       runMetadataAgent fileName]
  let overallConfidence := calculateOverallConfidence agentResults
  { iterationNumber := 1
    agentResults := agentResults
    consolidatedData := consolidateAgentResults agentResults
    overallConfidence := overallConfidence
    requiresNextIteration := decide (overallConfidence < 85) || hasConflicts agentResults }

/-- `documentType === s` where `documentType` is a field lookup: JS
strict equality against a string literal. -/
def isStrVal (o : Option Value) (s : String) : Bool :=
  match o with
  | some (.vStr t) => t == s
  | _ => false

/-- `runIteration2_SpecializedRefinement` (part_003 lines 283-328):
conditionally run the fiscal / trade / conflict-resolution specialists,
consolidate `[...prev.agentResults, ...specializedResults]`, and compute
the overall confidence from the specialized results only. -/
def runIteration2_SpecializedRefinement (oF oT oC : Outcome) (prev : IterationResult) :
    IterationResult :=
  let documentType := lookupField prev.consolidatedData "documentOrigin"
  let conflicts := identifyConflicts prev.agentResults
  let specializedResults :=
    (if isStrVal documentType "argentina" || isStrVal documentType "unknown" then
       [runArgentineFiscalAgent oF prev] else []) ++
    (if isStrVal documentType "international" || isStrVal documentType "unknown" then
       [runInternationalTradeAgent oT prev] else []) ++
    (if conflicts.length != 0 then [runConflictResolutionAgent oC prev conflicts] else [])
  let allResults := prev.agentResults ++ specializedResults
  let consolidatedData := consolidateAgentResults allResults
  let overallConfidence := calculateOverallConfidence specializedResults
  { iterationNumber := 2
    agentResults := specializedResults
    consolidatedData := consolidatedData
    overallConfidence := overallConfidence
    requiresNextIteration :=
      decide (overallConfidence < 95) && hasSignificantUncertainty consolidatedData }

/-- `runIteration3_FinalVerification` (part_003 lines 333-355): one
cross-validation call; its `extractedData` becomes the consolidated
mapping unconditionally and the pipeline never loops further. -/
def runIteration3_FinalVerification (o : Outcome) (prev : IterationResult) : IterationResult :=
  let verificationResult := runCrossValidationAgent o prev
  { iterationNumber := 3
    agentResults := [verificationResult]
    consolidatedData := verificationResult.extractedData
    overallConfidence := verificationResult.confidence
    requiresNextIteration := false }

/-- Stage-2 gate of `processDocumentOrchestrated` (part_003 line 185):
`iteration1.requiresNextIteration && iteration1.overallConfidence < 90`. -/
def proceedsToStage2 (it : IterationResult) : Bool :=
  it.requiresNextIteration && decide (it.overallConfidence < 90)

/-- Stage-3 gate of `processDocumentOrchestrated` (part_003 line 193):
`iteration2.requiresNextIteration && iteration2.overallConfidence < 95`. -/
def proceedsToStage3 (it : IterationResult) : Bool :=
  it.requiresNextIteration && decide (it.overallConfidence < 95)

/-- Per-agent configuration entry (agentManager.ts interface
`AgentConfig`), keeping the operationally meaningful fields. -/
structure AgentConfig where
  name : String
  enabled : Bool
  specialization : List String
  confidenceWeight : ℚ
  timeout : Nat
  maxRetries : Nat

/-- The fixed agent catalog of `AgentManager.initializeDefaultConfigs`
(agentManager.ts lines 67-153). -/
def defaultAgentConfigs : List AgentConfig :=
  [{ name := "classification_agent", enabled := true
     specialization := ["document_type", "origin_detection", "quality_assessment"]
     confidenceWeight := 1, timeout := 15000, maxRetries := 2 },
   { name := "structural_extraction_agent", enabled := true
     specialization := ["basic_fields", "amounts", "dates", "parties"]
     confidenceWeight := 1.2, timeout := 20000, maxRetries := 2 },
   { name := "metadata_agent", enabled := true
     specialization := ["file_analysis", "context_inference"]
     confidenceWeight := 0.8, timeout := 5000, maxRetries := 1 },
   { name := "argentina_fiscal_agent", enabled := true
     specialization := ["argentina_fiscal", "cuit_validation", "cae_validation"]
     confidenceWeight := 1.5, timeout := 25000, maxRetries := 3 },
   { name := "international_trade_agent", enabled := true
     specialization := ["international_trade", "hs_codes", "incoterms", "banking"]
     confidenceWeight := 1.3, timeout := 25000, maxRetries := 3 },
   { name := "conflict_resolution_agent", enabled := true
     specialization := ["conflict_resolution", "data_validation", "consensus_building"]
     confidenceWeight := 1.1, timeout := 30000, maxRetries := 2 },
   { name := "cross_validation_agent", enabled := true
     specialization := ["final_validation", "mathematical_coherence", "data_integrity"]
     confidenceWeight := 1.4, timeout := 35000, maxRetries := 2 }]

/-- `AgentManager.getAgentConfig` over the default catalog. -/
def getAgentConfig (name : String) : Option AgentConfig :=
  defaultAgentConfigs.find? fun c => c.name == name

/-- `SystemConfiguration.retryPolicy` (agentManager.ts lines 178-181). -/
structure RetryPolicy where
  maxRetries : Nat
  backoffMultiplier : ℚ

/-- The configured retry policy: `{ maxRetries: 3, backoffMultiplier: 1.5 }`. -/
def systemRetryPolicy : RetryPolicy :=
  { maxRetries := 3, backoffMultiplier := 1.5 }

/-- Number of completion-backend calls one agent invocation performs.
Every `run*Agent` body contains exactly one `anthropic.messages.create`
call inside its `try` block (e.g. part_003 lines 475-480) and no retry
loop, so the count is 1 for every outcome, success or failure. -/
def backendCallsPerInvocation (_ : Outcome) : Nat :=
  1

/-- Number of `agentManager.recordAgentExecution` calls one invocation
of the named agent performs, for any outcome.  In the source, only
`runClassificationAgent` (part_003 lines 502 and 520) and
`runStructuralExtractionAgent` (lines 710 and 724) record — exactly
once, on both the success and the catch path; the bodies of
`runMetadataAgent`, `runArgentineFiscalAgent` (lines 809-856),
`runInternationalTradeAgent`, `runConflictResolutionAgent` and
`runCrossValidationAgent` contain no `recordAgentExecution` call on any
path, and no other call site exists in the repository. -/
def recordCallsPerInvocation (agentName : String) (_ : Outcome) : Nat :=
  if agentName = "classification_agent" then 1
  else if agentName = "structural_extraction_agent" then 1
  else 0

/-- Per-agent running metrics (agentManager.ts interface
`AgentMetrics`); averages and the success rate are JS doubles,
idealised as exact rationals. -/
structure AgentMetrics where
  executions : Nat
  successRate : ℚ
  averageConfidence : ℚ
  averageExecutionTime : ℚ
  errorCount : Nat

/-- The metrics record every agent starts from
(`initializeDefaultConfigs`, agentManager.ts lines 143-151). -/
def initialAgentMetrics : AgentMetrics :=
  { executions := 0, successRate := 100, averageConfidence := 0
    averageExecutionTime := 0, errorCount := 0 }

/-- `AgentManager.recordAgentExecution` (agentManager.ts lines 188-217):
increment the execution count; on success fold confidence and latency
into the running averages dividing by the TOTAL execution count
(`metrics.executions` after the increment, which includes failed
calls); on failure increment the error count; always recompute
`successRate = (executions − errorCount) / executions × 100`. -/
def recordAgentExecution (m : AgentMetrics) (success : Bool)
    (confidence executionTime : ℚ) : AgentMetrics :=
  let executions := m.executions + 1
  let averageConfidence :=
    if success then (m.averageConfidence * ((executions : ℚ) - 1) + confidence) / (executions : ℚ)
    else m.averageConfidence
  let averageExecutionTime :=
    if success then
      (m.averageExecutionTime * ((executions : ℚ) - 1) + executionTime) / (executions : ℚ)
    else m.averageExecutionTime
  let errorCount := if success then m.errorCount else m.errorCount + 1
  { executions := executions
    successRate := (((executions : ℚ) - (errorCount : ℚ)) / (executions : ℚ)) * 100
    averageConfidence := averageConfidence
    averageExecutionTime := averageExecutionTime
    errorCount := errorCount }

/-- One observed agent invocation as fed to `recordAgentExecution`. -/
structure CallRecord where
  success : Bool
  confidence : ℚ
  time : ℚ

/-- Fold a sequence of invocations into the metrics record, starting
from the initial state. -/
def foldCalls (cs : List CallRecord) : AgentMetrics :=
  cs.foldl (fun m c => recordAgentExecution m c.success c.confidence c.time) initialAgentMetrics

/-- Number of failed invocations in a call sequence. -/
def countFailures (cs : List CallRecord) : Nat :=
  (cs.filter fun c => !c.success).length

/-- Modelled from the spec (§4.4 overall-confidence formula), as the
comparand for the refinement claim about `calculateOverallConfidence`:
the specialization-tag-count-weighted mean
`sum(confidence_i × |specializations_i|) / sum(|specializations_i|)`
over the rationals, rounded to the nearest integer (`round`, half away
from the floor), and 0 on the empty list as in the source. -/
def specWeightedConfidence (agentResults : List AgentResult) : Int :=
  match agentResults with
  | [] => 0
  | _ =>
      round (((agentResults.map fun r => (r.confidence : ℚ) * (r.specialization.length : ℚ)).sum)
        / ((agentResults.map fun r => ((r.specialization.length : ℕ) : ℚ)).sum))

/-! ### Helper lemmas about record updates and the merge fold -/

theorem lookupField_setField_self (m : RecordV) (k : String) (v : Value) :
    lookupField (setField m k v) k = some v := by
  induction m with
  | nil => simp [setField, lookupField]
  | cons kv rest ih =>
      obtain ⟨k', v'⟩ := kv
      by_cases h : k' = k
      · simp [setField, lookupField, h]
      · simp [setField, lookupField, h, ih]

theorem lookupField_setField_ne (m : RecordV) {k' k : String} (h : k' ≠ k) (v : Value) :
    lookupField (setField m k' v) k = lookupField m k := by
  induction m with
  | nil => simp [setField, lookupField, h]
  | cons kv rest ih =>
      obtain ⟨k₀, v₀⟩ := kv
      by_cases h0 : k₀ = k'
      · subst h0
        simp [setField, lookupField, h]
      · by_cases h1 : k₀ = k
        · simp [setField, lookupField, h0, h1, Ne.symm h]
        · simp [setField, lookupField, h0, h1, ih]

theorem lookupField_setField_isSome (m : RecordV) (k' k : String) (v : Value)
    (h : (lookupField m k).isSome = true) :
    (lookupField (setField m k' v) k).isSome = true := by
  by_cases hk : k' = k
  · subst hk; simp [lookupField_setField_self]
  · rwa [lookupField_setField_ne m hk]

theorem truthyAt_congr {m₁ m₂ : RecordV} (k : String)
    (h : lookupField m₁ k = lookupField m₂ k) : truthyAt m₁ k = truthyAt m₂ k := by
  simp [truthyAt, h]

theorem lookupField_mergeEntry_ne (conf : Int) (m : RecordV) (kv : String × Value)
    {k : String} (h : kv.1 ≠ k) :
    lookupField (mergeEntry conf m kv) k = lookupField m k := by
  unfold mergeEntry
  split
  · split
    · exact lookupField_setField_ne m h kv.2
    · rfl
  · rfl

theorem lookupField_mergeEntry_self (conf : Int) (m : RecordV) (k : String) (v : Value) :
    lookupField (mergeEntry conf m (k, v)) k =
      if isMergeable v = true ∧ (truthyAt m k = false ∨ 75 < conf) then some v
      else lookupField m k := by
  by_cases h1 : isMergeable v = true
  · by_cases h2 : truthyAt m k = false ∨ 75 < conf
    · simp [mergeEntry, h1, h2, lookupField_setField_self]
    · simp [mergeEntry, h1, h2]
  · simp [mergeEntry, h1]

theorem lookupField_mergeEntry_isSome (conf : Int) (m : RecordV) (kv : String × Value)
    (k : String) (h : (lookupField m k).isSome = true) :
    (lookupField (mergeEntry conf m kv) k).isSome = true := by
  unfold mergeEntry
  split
  · split
    · exact lookupField_setField_isSome m kv.1 k kv.2 h
    · exact h
  · exact h

theorem lookupField_foldl_mergeEntry_ne (conf : Int) (l : List (String × Value)) {k : String}
    (h : ∀ kv ∈ l, kv.1 ≠ k) :
    ∀ m : RecordV, lookupField (l.foldl (mergeEntry conf) m) k = lookupField m k := by
  induction l with
  | nil => intro m; rfl
  | cons kv rest ih =>
      intro m
      rw [List.foldl_cons, ih (fun x hx => h x (List.mem_cons_of_mem kv hx)),
        lookupField_mergeEntry_ne conf m kv (h kv (List.mem_cons_self kv rest))]

theorem lookupField_foldl_mergeEntry_isSome (conf : Int) (l : List (String × Value))
    (k : String) : ∀ m : RecordV, (lookupField m k).isSome = true →
    (lookupField (l.foldl (mergeEntry conf) m) k).isSome = true := by
  induction l with
  | nil => intro m h; exact h
  | cons kv rest ih =>
      intro m h
      exact ih (mergeEntry conf m kv) (lookupField_mergeEntry_isSome conf m kv k h)

/-- Full characterization of one `mergeResult` step at a key the new
result carries (the result's `extractedData`, being a JS object, has
pairwise-distinct keys): the field is overwritten with the new value
exactly when the running value is absent-or-falsy or the result's
confidence exceeds 75; otherwise the running value is untouched. -/
theorem lookupField_mergeResult (m : RecordV) (r : AgentResult) {k : String} {v : Value}
    (hmem : (k, v) ∈ r.extractedData)
    (hnodup : (r.extractedData.map Prod.fst).Nodup) :
    lookupField (mergeResult m r) k =
      if isMergeable v = true ∧ (truthyAt m k = false ∨ 75 < r.confidence) then some v
      else lookupField m k := by
  obtain ⟨as, bs, hsplit⟩ := List.append_of_mem hmem
  rw [hsplit] at hnodup
  rw [List.map_append, List.nodup_append] at hnodup
  obtain ⟨-, hnd2, hdisj⟩ := hnodup
  have hknotas : ∀ kv ∈ as, kv.1 ≠ k := by
    intro kv hkv hkk
    have hmem2 : kv.1 ∈ as.map Prod.fst := List.mem_map_of_mem Prod.fst hkv
    rw [hkk] at hmem2
    exact hdisj hmem2 (by simp [List.map_cons])
  have hknotbs : ∀ kv ∈ bs, kv.1 ≠ k := by
    intro kv hkv hkk
    rw [List.map_cons, List.nodup_cons] at hnd2
    have hmem2 : kv.1 ∈ bs.map Prod.fst := List.mem_map_of_mem Prod.fst hkv
    rw [hkk] at hmem2
    exact hnd2.1 hmem2
  unfold mergeResult
  rw [hsplit, List.foldl_append, List.foldl_cons]
  rw [lookupField_foldl_mergeEntry_ne r.confidence bs hknotbs]
  rw [lookupField_mergeEntry_self]
  rw [truthyAt_congr k (lookupField_foldl_mergeEntry_ne r.confidence as hknotas m)]
  rw [lookupField_foldl_mergeEntry_ne r.confidence as hknotas m]

theorem lookupField_mergeResult_isSome (m : RecordV) (r : AgentResult) (k : String)
    (h : (lookupField m k).isSome = true) :
    (lookupField (mergeResult m r) k).isSome = true :=
  lookupField_foldl_mergeEntry_isSome r.confidence r.extractedData k m h

theorem lookupField_foldl_mergeResult_isSome (sp : List AgentResult) (k : String) :
    ∀ m : RecordV, (lookupField m k).isSome = true →
    (lookupField (sp.foldl mergeResult m) k).isSome = true := by
  induction sp with
  | nil => intro m h; exact h
  | cons r rest ih =>
      intro m h
      exact ih (mergeResult m r) (lookupField_mergeResult_isSome m r k h)

theorem lookupField_mergeEntry_truthy_lowconf {conf : Int} (hconf : conf ≤ 75)
    (m : RecordV) (kv : String × Value) {k : String} {v : Value}
    (h : lookupField m k = some v) (htr : jsTruthy v = true) :
    lookupField (mergeEntry conf m kv) k = some v := by
  by_cases hk : kv.1 = k
  · obtain ⟨k1, v1⟩ := kv
    simp only at hk
    subst hk
    rw [lookupField_mergeEntry_self]
    have htruthy : truthyAt m k1 = true := by simp [truthyAt, h, htr]
    have : ¬(isMergeable v1 = true ∧ (truthyAt m k1 = false ∨ 75 < conf)) := by
      rintro ⟨-, h2 | h2⟩
      · rw [htruthy] at h2; simp at h2
      · omega
    rw [if_neg this, h]
  · rw [lookupField_mergeEntry_ne conf m kv hk, h]

theorem lookupField_mergeResult_truthy_lowconf {r : AgentResult} (hconf : r.confidence ≤ 75)
    {k : String} {v : Value} (htr : jsTruthy v = true) :
    ∀ m : RecordV, lookupField m k = some v → lookupField (mergeResult m r) k = some v := by
  unfold mergeResult
  generalize r.extractedData = l
  induction l with
  | nil => intro m h; exact h
  | cons kv rest ih =>
      intro m h
      exact ih (mergeEntry r.confidence m kv)
        (lookupField_mergeEntry_truthy_lowconf hconf m kv h htr)

theorem lookupField_foldl_mergeResult_truthy_lowconf (sp : List AgentResult)
    (hconf : ∀ r ∈ sp, r.confidence ≤ 75) {k : String} {v : Value}
    (htr : jsTruthy v = true) :
    ∀ m : RecordV, lookupField m k = some v →
    lookupField (sp.foldl mergeResult m) k = some v := by
  induction sp with
  | nil => intro m h; exact h
  | cons r rest ih =>
      intro m h
      exact ih (fun x hx => hconf x (List.mem_cons_of_mem r hx)) (mergeResult m r)
        (lookupField_mergeResult_truthy_lowconf (hconf r (List.mem_cons_self r rest)) htr m h)

theorem lookupField_mergeResult_highconf (m : RecordV) (r : AgentResult) {k : String}
    {v : Value} (hmem : (k, v) ∈ r.extractedData)
    (hnodup : (r.extractedData.map Prod.fst).Nodup)
    (hv : isMergeable v = true) (hconf : 75 < r.confidence) :
    lookupField (mergeResult m r) k = some v := by
  rw [lookupField_mergeResult m r hmem hnodup, if_pos ⟨hv, Or.inr hconf⟩]

theorem lookupField_foldl_mergeEntry_no_mergeable (conf : Int) (l : List (String × Value))
    {k : String} (h : ∀ kv ∈ l, kv.1 = k → isMergeable kv.2 = false) :
    ∀ m : RecordV, lookupField (l.foldl (mergeEntry conf) m) k = lookupField m k := by
  induction l with
  | nil => intro m; rfl
  | cons kv rest ih =>
      intro m
      rw [List.foldl_cons, ih fun x hx hk => h x (List.mem_cons_of_mem kv hx) hk]
      by_cases hk : kv.1 = k
      · have hnm := h kv (List.mem_cons_self kv rest) hk
        simp [mergeEntry, hnm]
      · exact lookupField_mergeEntry_ne conf m kv hk

theorem lookupField_mergeResult_no_mergeable (m : RecordV) (r : AgentResult) {k : String}
    (h : ∀ v : Value, (k, v) ∈ r.extractedData → isMergeable v = false) :
    lookupField (mergeResult m r) k = lookupField m k := by
  unfold mergeResult
  refine lookupField_foldl_mergeEntry_no_mergeable r.confidence r.extractedData ?_ m
  intro kv hkv hk
  obtain ⟨k1, v1⟩ := kv
  simp only at hk
  subst hk
  exact h v1 hkv

theorem lookupField_foldl_mergeResult_no_mergeable (sp : List AgentResult) {k : String}
    (h : ∀ r ∈ sp, ∀ v : Value, (k, v) ∈ r.extractedData → isMergeable v = false) :
    ∀ m : RecordV, lookupField (sp.foldl mergeResult m) k = lookupField m k := by
  induction sp with
  | nil => intro m; rfl
  | cons r rest ih =>
      intro m
      rw [List.foldl_cons, ih fun x hx => h x (List.mem_cons_of_mem r hx),
        lookupField_mergeResult_no_mergeable m r (h r (List.mem_cons_self r rest))]

/-! ### Helper lemmas about the confidence arithmetic -/

theorem foldl_add_int {α : Type} (g : α → Int) (l : List α) :
    ∀ a : Int, l.foldl (fun s x => s + g x) a = a + (l.map g).sum := by
  induction l with
  | nil => intro a; simp
  | cons x xs ih => intro a; simp [List.foldl_cons, ih, add_assoc]

theorem foldl_add_nat {α : Type} (g : α → Nat) (l : List α) :
    ∀ a : Nat, l.foldl (fun s x => s + g x) a = a + (l.map g).sum := by
  induction l with
  | nil => intro a; simp
  | cons x xs ih => intro a; simp [List.foldl_cons, ih, Nat.add_assoc]

theorem weightedSum_eq_sum (rs : List AgentResult) :
    weightedSum rs = (rs.map fun r => r.confidence * (r.specialization.length : Int)).sum := by
  simpa using foldl_add_int (fun r => r.confidence * (r.specialization.length : Int)) rs 0

theorem totalWeight_eq_sum (rs : List AgentResult) :
    totalWeight rs = (rs.map fun r => r.specialization.length).sum := by
  simpa using foldl_add_nat (fun r => r.specialization.length) rs 0

/-- `Math.round(a/b)` agrees with Mathlib's `round` of the exact
rational quotient, for a positive denominator. -/
theorem mathRound_eq_round (a : Int) (b : Nat) (hb : 0 < b) :
    mathRound a b = round ((a : ℚ) / (b : ℚ)) := by
  have hbq : ((b : ℚ)) ≠ 0 := by exact_mod_cast hb.ne'
  have h1 : (a : ℚ) / (b : ℚ) + 1 / 2 = ((2 * a + b : ℤ) : ℚ) / (((2 * b : ℕ)) : ℚ) := by
    push_cast
    field_simp
    ring
  rw [round_eq, h1, Rat.floor_intCast_div_natCast, mathRound,
    Int.fdiv_eq_ediv _ (by positivity)]
  push_cast
  rfl

theorem round_mono_rat {x y : ℚ} (h : x ≤ y) : round x ≤ round y := by
  rw [round_eq, round_eq]
  exact Int.floor_le_floor (by linarith)

/-! ### Helper lemmas about the metrics recurrence -/

theorem recordAgentExecution_executions (m : AgentMetrics) (s : Bool) (c t : ℚ) :
    (recordAgentExecution m s c t).executions = m.executions + 1 := rfl

theorem recordAgentExecution_errorCount (m : AgentMetrics) (s : Bool) (c t : ℚ) :
    (recordAgentExecution m s c t).errorCount =
      if s then m.errorCount else m.errorCount + 1 := by
  cases s <;> rfl

theorem recordAgentExecution_successRate (m : AgentMetrics) (s : Bool) (c t : ℚ) :
    (recordAgentExecution m s c t).successRate =
      ((((recordAgentExecution m s c t).executions : ℚ) -
          ((recordAgentExecution m s c t).errorCount : ℚ)) /
        ((recordAgentExecution m s c t).executions : ℚ)) * 100 := rfl

theorem foldl_record_executions (cs : List CallRecord) :
    ∀ m : AgentMetrics,
      (cs.foldl (fun m c => recordAgentExecution m c.success c.confidence c.time) m).executions
        = m.executions + cs.length := by
  induction cs with
  | nil => intro m; simp
  | cons c rest ih =>
      intro m
      rw [List.foldl_cons, ih, recordAgentExecution_executions]
      simp
      omega

theorem foldl_record_errorCount (cs : List CallRecord) :
    ∀ m : AgentMetrics,
      (cs.foldl (fun m c => recordAgentExecution m c.success c.confidence c.time) m).errorCount
        = m.errorCount + countFailures cs := by
  induction cs with
  | nil => intro m; simp [countFailures]
  | cons c rest ih =>
      intro m
      rw [List.foldl_cons, ih, recordAgentExecution_errorCount]
      cases hc : c.success <;> simp [countFailures, hc, List.filter_cons] <;> omega

theorem foldl_record_avgConf (cs : List CallRecord) :
    ∀ m : AgentMetrics, (∀ c ∈ cs, c.success = true) →
      (cs.foldl (fun m c => recordAgentExecution m c.success c.confidence c.time)
          m).averageConfidence * ((m.executions + cs.length : ℕ) : ℚ)
        = m.averageConfidence * (m.executions : ℚ) + (cs.map fun c => c.confidence).sum := by
  induction cs with
  | nil => intro m h; simp
  | cons c rest ih =>
      intro m h
      have hc : c.success = true := h c (List.mem_cons_self c rest)
      rw [List.foldl_cons]
      have hrec := ih (recordAgentExecution m c.success c.confidence c.time)
        fun x hx => h x (List.mem_cons_of_mem c hx)
      rw [recordAgentExecution_executions] at hrec
      have hne : ((m.executions + 1 : ℕ) : ℚ) ≠ 0 := by positivity
      have havg : (recordAgentExecution m c.success c.confidence c.time).averageConfidence
          * ((m.executions + 1 : ℕ) : ℚ)
          = m.averageConfidence * (m.executions : ℚ) + c.confidence := by
        rw [hc]
        show (m.averageConfidence * (((m.executions + 1 : ℕ) : ℚ) - 1) + c.confidence)
            / ((m.executions + 1 : ℕ) : ℚ) * ((m.executions + 1 : ℕ) : ℚ)
            = m.averageConfidence * (m.executions : ℚ) + c.confidence
        rw [div_mul_cancel₀ _ hne]
        push_cast
        ring
      rw [List.map_cons, List.sum_cons]
      push_cast [List.length_cons] at hrec havg ⊢
      linarith

/-! ### Claim C1 — consolidation overwrite rule -/

/-- A companion lemma shared by the consolidation claims: folding a
result list that ends in one more result is one `mergeResult` step on
the consolidation of the prefix. -/
theorem consolidate_append (A B : List AgentResult) :
    consolidateAgentResults (A ++ B) = B.foldl mergeResult (consolidateAgentResults A) := by
  unfold consolidateAgentResults
  exact List.foldl_append mergeResult [] A B

/-- First result: confidence 80, carrying the field `taxAmount = 0`
(non-null and non-empty, so it is consolidated). -/
def c1resA : AgentResult :=
  { agentName := "agent_a", extractedData := [("taxAmount", Value.vNum 0)]
    confidence := 80, specialization := ["amounts"], conflicts := none }

/-- Second result: confidence 50 (below the 75 acceptance threshold),
carrying a different non-null value for the same field. -/
def c1resB : AgentResult :=
  { agentName := "agent_b", extractedData := [("taxAmount", Value.vNum 5)]
    confidence := 50, specialization := ["amounts"], conflicts := none }

/-- Claim C1 (counterexample): `consolidateAgentResults` does NOT leave
an already-set field untouched under a low-confidence merge.  After
consolidating `c1resA`, the field `taxAmount` is set to the number 0;
merging `c1resB` (confidence 50 ≤ 75) with the different non-null value
5 nevertheless overwrites it, because the guard `!consolidated[key]`
tests JS truthiness, and 0 is falsy. -/
theorem c1_counterexample :
    c1resB.confidence ≤ 75 ∧ isMergeable (Value.vNum 5) = true ∧
    Value.vNum 5 ≠ Value.vNum 0 ∧
    lookupField (consolidateAgentResults [c1resA]) "taxAmount" = some (Value.vNum 0) ∧
    lookupField (consolidateAgentResults [c1resA, c1resB]) "taxAmount" = some (Value.vNum 5) := by
  refine ⟨by decide, rfl, ?_, rfl, rfl⟩
  intro h
  exact absurd (Value.vNum.inj h) (by decide)

/-- Claim C1 (amended): folding one more agent result onto a running
consolidated mapping overwrites a field carrying a non-null, non-empty
value if and only if the running value is absent OR FALSY (by JS
truthiness — so a stored 0, false or similar counts as absent), or the
new result's confidence exceeds 75; otherwise the running value is
kept.  In particular an already-set TRUTHY value survives any merge of
confidence ≤ 75, and an unset field is always set by a merge of
confidence > 75.  (The result's field names are pairwise distinct, as
for any JS object.) -/
theorem c1_merge_overwrite_characterization (rs : List AgentResult) (r : AgentResult)
    (k : String) (v : Value) (hmem : (k, v) ∈ r.extractedData)
    (hnodup : (r.extractedData.map Prod.fst).Nodup)
    (hv : isMergeable v = true) :
    lookupField (consolidateAgentResults (rs ++ [r])) k =
      if truthyAt (consolidateAgentResults rs) k = false ∨ 75 < r.confidence
      then some v
      else lookupField (consolidateAgentResults rs) k := by
  have h1 : consolidateAgentResults (rs ++ [r]) =
      mergeResult (consolidateAgentResults rs) r := consolidate_append rs [r]
  rw [h1, lookupField_mergeResult _ r hmem hnodup]
  by_cases h2 : truthyAt (consolidateAgentResults rs) k = false ∨ 75 < r.confidence
  · rw [if_pos ⟨hv, h2⟩, if_pos h2]
  · rw [if_neg fun hcon => h2 hcon.2, if_neg h2]

/-- A fresh high-confidence result used to witness C1. -/
def c1resW : AgentResult :=
  { agentName := "agent_w", extractedData := [("totalAmount", Value.vNum 42)]
    confidence := 80, specialization := ["amounts"], conflicts := none }

/-- Witness for C1: instantiating the characterization on the empty
running mapping and a confidence-80 result sets the unset field. -/
theorem c1_merge_overwrite_characterization_witness :
    lookupField (consolidateAgentResults ([] ++ [c1resW])) "totalAmount" =
      some (Value.vNum 42) := by
  have h := c1_merge_overwrite_characterization [] c1resW "totalAmount" (Value.vNum 42)
    (by simp [c1resW]) (by simp [c1resW]) rfl
  rw [h]
  rfl

/-! ### Claim C10 — order dependence among high-confidence results -/

/-- Claim C10: consolidation is order-dependent among high-confidence
agents.  If two results both have confidence above 75 and both carry a
non-null, non-empty value for the same field, the consolidated mapping
holds the value of the one appearing later in the list (here: `r2`,
with no later result contributing a mergeable value for that field),
regardless of which of the two confidences is higher. -/
theorem c10_last_high_confidence_wins (xs ys zs : List AgentResult) (r1 r2 : AgentResult)
    (k : String) (v1 v2 : Value)
    (h1mem : (k, v1) ∈ r1.extractedData) (h1v : isMergeable v1 = true)
    (h1conf : 75 < r1.confidence)
    (h2mem : (k, v2) ∈ r2.extractedData)
    (h2nodup : (r2.extractedData.map Prod.fst).Nodup)
    (h2v : isMergeable v2 = true) (h2conf : 75 < r2.confidence)
    (hzs : ∀ r ∈ zs, ∀ v : Value, (k, v) ∈ r.extractedData → isMergeable v = false) :
    lookupField (consolidateAgentResults (xs ++ r1 :: ys ++ r2 :: zs)) k = some v2 := by
  have hsplit : xs ++ r1 :: ys ++ r2 :: zs = ((xs ++ r1 :: ys) ++ [r2]) ++ zs := by
    simp
  rw [hsplit, consolidate_append, lookupField_foldl_mergeResult_no_mergeable zs hzs,
    consolidate_append]
  show lookupField (mergeResult (consolidateAgentResults (xs ++ r1 :: ys)) r2) k = some v2
  exact lookupField_mergeResult_highconf _ r2 h2mem h2nodup h2v h2conf

/-- Earlier high-confidence carrier (confidence 90) used to witness C10. -/
def c10r1 : AgentResult :=
  { agentName := "agent_one", extractedData := [("currency", Value.vStr "ARS")]
    confidence := 90, specialization := ["s"], conflicts := none }

/-- Later, LOWER-confidence (but still > 75) carrier used to witness C10. -/
def c10r2 : AgentResult :=
  { agentName := "agent_two", extractedData := [("currency", Value.vStr "USD")]
    confidence := 80, specialization := ["s"], conflicts := none }

/-- Witness for C10: the later confidence-80 result beats the earlier
confidence-90 result. -/
theorem c10_last_high_confidence_wins_witness :
    lookupField (consolidateAgentResults ([] ++ c10r1 :: [] ++ c10r2 :: [])) "currency" =
      some (Value.vStr "USD") :=
  c10_last_high_confidence_wins [] [] [] c10r1 c10r2 "currency" (Value.vStr "ARS")
    (Value.vStr "USD") (by simp [c10r1]) rfl (by decide) (by simp [c10r2])
    (by simp [c10r2]) rfl (by decide) (by simp)

/-! ### Claim C2 — Stage-2 continuation decision -/

/-- Stage-1 outputs for the C2 counterexample: the classification
response claims confidence 150, the structural agent's backend call
fails (producing a conflict marker). -/
def c2it1 : IterationResult :=
  runIteration1_BaseAnalysis (Outcome.ok (some [("confidence", Value.vNum 150)]) "")
    Outcome.err "doc.pdf" true

/-- Claim C2 (counterexample): a Stage-1 output set exists with a
reported conflict (so the claim says the run proceeds to Stage 2), yet
the controller stops after Stage 1: `processDocumentOrchestrated`
additionally requires `overallConfidence < 90`, and here the overall
confidence is 102. -/
theorem c2_counterexample :
    hasConflicts c2it1.agentResults = true ∧
    c2it1.overallConfidence = 102 ∧
    c2it1.requiresNextIteration = true ∧
    proceedsToStage2 c2it1 = false :=
  ⟨rfl, rfl, rfl, rfl⟩

/-- Claim C2 (amended): the controller proceeds to Stage 2 if and only
if (the Stage-1 overall confidence is below 85 OR some Stage-1 agent
reported a conflict) AND the overall confidence is also below 90; the
second conjunct is the extra guard at the call site. -/
theorem c2_stage2_gate (o1 o2 : Outcome) (fileName : String) (isPdf : Bool) :
    proceedsToStage2 (runIteration1_BaseAnalysis o1 o2 fileName isPdf) = true ↔
      (((runIteration1_BaseAnalysis o1 o2 fileName isPdf).overallConfidence < 85 ∨
          hasConflicts (runIteration1_BaseAnalysis o1 o2 fileName isPdf).agentResults = true) ∧
        (runIteration1_BaseAnalysis o1 o2 fileName isPdf).overallConfidence < 90) := by
  simp [proceedsToStage2, runIteration1_BaseAnalysis]

/-! ### Claim C3 — consecutive-iteration merge invariant -/

/-- Classification output for the C3 counterexample run. -/
def c3o1 : Outcome :=
  Outcome.ok (some [("documentOrigin", Value.vStr "argentina"),
    ("confidence", Value.vNum 80)]) ""

/-- Structural output for the C3 counterexample run (no `customerName`,
so Stage 3 will be required). -/
def c3o2 : Outcome :=
  Outcome.ok (some [("invoiceNumber", Value.vStr "0001-00001234"),
    ("totalAmount", Value.vNum 100), ("providerName", Value.vStr "P")]) ""

/-- Fiscal-agent output for the C3 counterexample run: confidence 80,
overwriting `invoiceNumber`. -/
def c3oF : Outcome :=
  Outcome.ok (some [("invoiceNumber", Value.vStr "9999"),
    ("confidence", Value.vNum 80)]) ""

/-- Cross-validation output for the C3 counterexample run: a response
without `finalOptimizedData` and without any of the document fields. -/
def c3o3 : Outcome :=
  Outcome.ok (some [("mathematicalValidation", Value.vBool true),
    ("confidence", Value.vNum 97)]) ""

/-- Iteration 1 of the C3 counterexample run. -/
def c3it1 : IterationResult := runIteration1_BaseAnalysis c3o1 c3o2 "doc.x" true

/-- Iteration 2 of the C3 counterexample run (only the fiscal agent is
selected, so the other outcomes are irrelevant). -/
def c3it2 : IterationResult := runIteration2_SpecializedRefinement c3oF Outcome.err Outcome.err c3it1

/-- Iteration 3 of the C3 counterexample run. -/
def c3it3 : IterationResult := runIteration3_FinalVerification c3o3 c3it2

/-- Claim C3 (counterexample): in a run that genuinely reaches all
three stages, (a) iteration 2 replaces `invoiceNumber`, set by the
confidence-90 structural agent, with the value of a confidence-80
result — NOT higher-or-equal confidence; and (b) iteration 3 drops
`invoiceNumber` (and every other document field) entirely, because its
consolidated data is taken wholesale from the verification agent. -/
theorem c3_counterexample :
    proceedsToStage2 c3it1 = true ∧
    proceedsToStage3 c3it2 = true ∧
    lookupField c3it1.consolidatedData "invoiceNumber" = some (Value.vStr "0001-00001234") ∧
    lookupField c3it2.consolidatedData "invoiceNumber" = some (Value.vStr "9999") ∧
    lookupField c3it3.consolidatedData "invoiceNumber" = none :=
  ⟨rfl, rfl, rfl, rfl, rfl⟩

/-- Claim C3 (amended): between iteration 1 and iteration 2: (a) no
field of the earlier consolidated mapping is dropped, and (b) a set
field whose value is truthy is preserved whenever every Stage-2 result
has confidence ≤ 75 (values are only replaced by non-empty values of
results with confidence above the fixed 75 threshold — not necessarily
above the original contributor's confidence).  (c) Iteration 3's
consolidated data is the verification agent's output taken wholesale,
with no merge against iteration 2. -/
theorem c3_iteration_merge_properties (o1 o2 : Outcome) (fileName : String) (isPdf : Bool)
    (oF oT oC : Outcome) :
    (∀ (k : String) (v : Value),
        lookupField (runIteration1_BaseAnalysis o1 o2 fileName isPdf).consolidatedData k
          = some v →
        ∃ v' : Value,
          lookupField (runIteration2_SpecializedRefinement oF oT oC
            (runIteration1_BaseAnalysis o1 o2 fileName isPdf)).consolidatedData k = some v')
    ∧ (∀ (k : String) (v : Value),
        lookupField (runIteration1_BaseAnalysis o1 o2 fileName isPdf).consolidatedData k
          = some v →
        jsTruthy v = true →
        (∀ r ∈ (runIteration2_SpecializedRefinement oF oT oC
            (runIteration1_BaseAnalysis o1 o2 fileName isPdf)).agentResults,
          r.confidence ≤ 75) →
        lookupField (runIteration2_SpecializedRefinement oF oT oC
          (runIteration1_BaseAnalysis o1 o2 fileName isPdf)).consolidatedData k = some v)
    ∧ (∀ o3 : Outcome,
        (runIteration3_FinalVerification o3 (runIteration2_SpecializedRefinement oF oT oC
          (runIteration1_BaseAnalysis o1 o2 fileName isPdf))).consolidatedData =
        (runCrossValidationAgent o3 (runIteration2_SpecializedRefinement oF oT oC
          (runIteration1_BaseAnalysis o1 o2 fileName isPdf))).extractedData) := by
  have he : (runIteration2_SpecializedRefinement oF oT oC
        (runIteration1_BaseAnalysis o1 o2 fileName isPdf)).consolidatedData =
      ((runIteration2_SpecializedRefinement oF oT oC
        (runIteration1_BaseAnalysis o1 o2 fileName isPdf)).agentResults).foldl mergeResult
        (runIteration1_BaseAnalysis o1 o2 fileName isPdf).consolidatedData :=
    consolidate_append _ _
  refine ⟨?_, ?_, fun o3 => rfl⟩
  · intro k v h
    rw [he]
    exact Option.isSome_iff_exists.mp
      (lookupField_foldl_mergeResult_isSome _ k _ (by rw [h]; rfl))
  · intro k v h htr hconf
    rw [he]
    exact lookupField_foldl_mergeResult_truthy_lowconf _ hconf htr _ h

/-- Classification output for the C3 witness run (no explicit
confidence, so the default 75 applies). -/
def c3wo1 : Outcome :=
  Outcome.ok (some [("documentOrigin", Value.vStr "argentina"),
    ("totalAmount", Value.vNum 200)]) ""

/-- Low-confidence (50) fiscal output for the C3 witness run, carrying
a different `totalAmount`. -/
def c3woF : Outcome :=
  Outcome.ok (some [("totalAmount", Value.vNum 999), ("confidence", Value.vNum 50)]) ""

/-- Iteration 1 of the C3 witness run. -/
def c3wit1 : IterationResult := runIteration1_BaseAnalysis c3wo1 Outcome.err "x" true

/-- Witness for C3: in a concrete run whose only Stage-2 result has
confidence 50, the truthy field `totalAmount = 200` from iteration 1
survives iteration 2 unchanged. -/
theorem c3_iteration_merge_properties_witness :
    lookupField (runIteration2_SpecializedRefinement c3woF Outcome.err Outcome.err
      c3wit1).consolidatedData "totalAmount" = some (Value.vNum 200) :=
  (c3_iteration_merge_properties c3wo1 Outcome.err "x" true c3woF Outcome.err
    Outcome.err).2.1 "totalAmount" (Value.vNum 200) rfl rfl (by decide)

/-! ### Claim C4 — overall-confidence formula -/

theorem weightedSum_cast (rs : List AgentResult) :
    ((weightedSum rs : ℤ) : ℚ) =
      (rs.map fun r => (r.confidence : ℚ) * (r.specialization.length : ℚ)).sum := by
  rw [weightedSum_eq_sum, Int.cast_list_sum, List.map_map]
  simp [Function.comp_def]

theorem totalWeight_cast (rs : List AgentResult) :
    ((totalWeight rs : ℕ) : ℚ) =
      (rs.map fun r => ((r.specialization.length : ℕ) : ℚ)).sum := by
  rw [totalWeight_eq_sum, Nat.cast_list_sum, List.map_map]
  rfl

theorem totalWeight_cast_int (rs : List AgentResult) :
    ((totalWeight rs : ℕ) : ℤ) =
      (rs.map fun r => (r.specialization.length : ℤ)).sum := by
  rw [totalWeight_eq_sum, Nat.cast_list_sum, List.map_map]
  rfl

/-- Claim C4: for every agent-result list with positive total weight
(every real agent claims at least one specialization tag, and the list
is non-empty), `calculateOverallConfidence` equals the specification's
weighted mean `sum(confidence × |specializations|) /
sum(|specializations|)` over the exact rationals, rounded to the
nearest integer; and Stage 2's overall confidence is recomputed from
only the Stage-2 result set. -/
theorem c4_weighted_confidence_formula (rs : List AgentResult) :
    (0 < totalWeight rs → calculateOverallConfidence rs = specWeightedConfidence rs)
    ∧ ∀ (oF oT oC : Outcome) (prev : IterationResult),
        (runIteration2_SpecializedRefinement oF oT oC prev).overallConfidence =
          calculateOverallConfidence
            (runIteration2_SpecializedRefinement oF oT oC prev).agentResults := by
  constructor
  · intro hW
    cases rs with
    | nil => simp [totalWeight] at hW
    | cons r rest =>
        show mathRound (weightedSum (r :: rest)) (totalWeight (r :: rest)) =
          round ((((r :: rest).map fun x =>
              (x.confidence : ℚ) * (x.specialization.length : ℚ)).sum)
            / (((r :: rest).map fun x => ((x.specialization.length : ℕ) : ℚ)).sum))
        rw [mathRound_eq_round _ _ hW, ← weightedSum_cast, ← totalWeight_cast]
  · intro oF oT oC prev
    rfl

/-- Concrete results used to witness C4 (weights 2 and 1). -/
def c4rsW : List AgentResult :=
  [{ agentName := "w1", extractedData := [], confidence := 90
     specialization := ["a", "b"], conflicts := none },
   { agentName := "w2", extractedData := [], confidence := 60
     specialization := ["c"], conflicts := none }]

/-- Witness for C4: the spec-side weighted mean of the concrete list is
`round((90·2 + 60·1)/3) = 80`, computed through the refinement
equation. -/
theorem c4_weighted_confidence_formula_witness : specWeightedConfidence c4rsW = 80 := by
  have h := (c4_weighted_confidence_formula c4rsW).1 (by decide)
  rw [← h]
  rfl

/-! ### Claim C5 — overall confidence stays in [0, 100] -/

/-- Stage-1 iteration where the classification response claims
confidence 150 (the code adopts any nonzero model-reported number
without clamping). -/
def c5it1 : IterationResult :=
  runIteration1_BaseAnalysis (Outcome.ok (some [("confidence", Value.vNum 150)]) "")
    (Outcome.ok (some []) "") "a.pdf" true

/-- Claim C5 (counterexample): a backend response claiming
`confidence: 150` yields a Stage-1 `IterationResult` whose overall
confidence is 103, outside [0, 100]. -/
theorem c5_counterexample :
    c5it1.overallConfidence = 103 ∧ ¬(c5it1.overallConfidence ≤ 100) :=
  ⟨rfl, by decide⟩

/-- Claim C5 (amended): the overall confidence lies in [0, 100]
whenever every agent's confidence lies in [0, 100] (and the total
specialization weight is positive) — the code never clamps a
model-reported confidence, so the bound is conditional on the model
respecting the prompt's 0..100 range. -/
theorem c5_confidence_bounds (rs : List AgentResult)
    (hconf : ∀ r ∈ rs, 0 ≤ r.confidence ∧ r.confidence ≤ 100)
    (hW : 0 < totalWeight rs) :
    0 ≤ calculateOverallConfidence rs ∧ calculateOverallConfidence rs ≤ 100 := by
  have hS0 : 0 ≤ weightedSum rs := by
    rw [weightedSum_eq_sum]
    apply List.sum_nonneg
    intro x hx
    obtain ⟨r, hr, rfl⟩ := List.mem_map.mp hx
    exact mul_nonneg (hconf r hr).1 (by positivity)
  have hS100 : weightedSum rs ≤ 100 * ((totalWeight rs : ℕ) : ℤ) := by
    rw [weightedSum_eq_sum, totalWeight_cast_int, ← List.sum_map_mul_left]
    apply List.sum_le_sum
    intro r hr
    exact mul_le_mul_of_nonneg_right (hconf r hr).2 (by positivity)
  cases rs with
  | nil => simp [totalWeight] at hW
  | cons r rest =>
      show 0 ≤ mathRound (weightedSum (r :: rest)) (totalWeight (r :: rest)) ∧
        mathRound (weightedSum (r :: rest)) (totalWeight (r :: rest)) ≤ 100
      rw [mathRound_eq_round _ _ hW]
      have hWq : (0 : ℚ) < ((totalWeight (r :: rest) : ℕ) : ℚ) := by exact_mod_cast hW
      constructor
      · have h0 : (0 : ℚ) ≤ (weightedSum (r :: rest) : ℚ) /
            ((totalWeight (r :: rest) : ℕ) : ℚ) :=
          div_nonneg (by exact_mod_cast hS0) hWq.le
        have hr0 := round_mono_rat h0
        simpa using hr0
      · have h100 : (weightedSum (r :: rest) : ℚ) /
            ((totalWeight (r :: rest) : ℕ) : ℚ) ≤ (100 : ℚ) := by
          rw [div_le_iff₀ hWq]
          exact_mod_cast hS100
        have hr100 := round_mono_rat h100
        have h1 : round ((100 : ℚ)) = (100 : ℤ) := by
          rw [show (100 : ℚ) = ((100 : ℤ) : ℚ) by norm_num, round_intCast]
        omega

/-- Concrete in-range results used to witness C5. -/
def c5rsW : List AgentResult :=
  [{ agentName := "v1", extractedData := [], confidence := 95
     specialization := ["a", "b"], conflicts := none },
   { agentName := "v2", extractedData := [], confidence := 40
     specialization := ["c"], conflicts := none }]

/-- Witness for C5: with confidences 95 and 40 the bounds hold. -/
theorem c5_confidence_bounds_witness :
    0 ≤ calculateOverallConfidence c5rsW ∧ calculateOverallConfidence c5rsW ≤ 100 :=
  c5_confidence_bounds c5rsW (by decide) (by decide)

/-! ### Claim C6 — failed-call fallback results -/

/-- A prior iteration whose consolidated data carries document fields,
used to exhibit the cross-validation fallback. -/
def c6ctx : IterationResult :=
  { iterationNumber := 2, agentResults := []
    consolidatedData := [("totalAmount", Value.vNum 100), ("providerName", Value.vStr "ACME")]
    overallConfidence := 90, requiresNextIteration := true }

/-- Claim C6 (counterexample): when the cross-validation agent's
backend call fails, the returned result's extracted data is the FULL
prior consolidated mapping — populated with document fields
(`totalAmount`, `providerName`) and not error-marked — at the fixed
confidence 80, contradicting "empty or error-marked, never partially or
fully populated". -/
theorem c6_counterexample :
    (runCrossValidationAgent Outcome.err c6ctx).confidence = 80 ∧
    lookupField (runCrossValidationAgent Outcome.err c6ctx).extractedData "totalAmount"
      = some (Value.vNum 100) ∧
    lookupField (runCrossValidationAgent Outcome.err c6ctx).extractedData "providerName"
      = some (Value.vStr "ACME") ∧
    lookupField (runCrossValidationAgent Outcome.err c6ctx).extractedData "error" = none :=
  ⟨rfl, rfl, rfl, rfl⟩

/-- Claim C6 (amended): every failed invocation returns a FIXED
agent-specific confidence (classification 30, structural 40, fiscal 50,
trade 45, conflict-resolution 60, cross-validation 80 — not all of them
low), never a model-derived one; the extracted data is empty for the
structural/fiscal/trade/conflict agents, a two-field `unknown`
placeholder for classification, and the whole prior consolidated
mapping for cross-validation. -/
theorem c6_failure_fallbacks (ctx : IterationResult) (conflicts : List String) (isPdf : Bool) :
    ((runClassificationAgent Outcome.err).confidence = 30 ∧
      (runClassificationAgent Outcome.err).extractedData =
        [("documentType", Value.vStr "unknown"), ("documentOrigin", Value.vStr "unknown")])
    ∧ ((runStructuralExtractionAgent Outcome.err isPdf).confidence = 40 ∧
        (runStructuralExtractionAgent Outcome.err isPdf).extractedData = [])
    ∧ ((runArgentineFiscalAgent Outcome.err ctx).confidence = 50 ∧
        (runArgentineFiscalAgent Outcome.err ctx).extractedData = [])
    ∧ ((runInternationalTradeAgent Outcome.err ctx).confidence = 45 ∧
        (runInternationalTradeAgent Outcome.err ctx).extractedData = [])
    ∧ ((runConflictResolutionAgent Outcome.err ctx conflicts).confidence = 60 ∧
        (runConflictResolutionAgent Outcome.err ctx conflicts).extractedData = [])
    ∧ ((runCrossValidationAgent Outcome.err ctx).confidence = 80 ∧
        (runCrossValidationAgent Outcome.err ctx).extractedData = ctx.consolidatedData) :=
  ⟨⟨rfl, rfl⟩, ⟨rfl, rfl⟩, ⟨rfl, rfl⟩, ⟨rfl, rfl⟩, ⟨rfl, rfl⟩, ⟨rfl, rfl⟩⟩

/-! ### Claim C7 — JSON parse failure handling -/

/-- Claim C7 (counterexample): on a response text that fails to
JSON-parse, the classification agent returns confidence 75 (the
success-path default, because the error record has no `confidence`
field) — not the claimed fallback 30 — and NO conflict marker; the
extracted data is the error-marked record. -/
theorem c7_counterexample :
    (runClassificationAgent (Outcome.ok none "not json")).confidence = 75 ∧
    ¬((runClassificationAgent (Outcome.ok none "not json")).confidence = 30) ∧
    (runClassificationAgent (Outcome.ok none "not json")).conflicts = none ∧
    lookupField (runClassificationAgent (Outcome.ok none "not json")).extractedData "error"
      = some (Value.vStr "Failed to parse JSON") :=
  ⟨rfl, by decide, rfl, rfl⟩

/-- Claim C7 (amended): `cleanAnthropicResponse` swallows the parse
exception and returns the error-marked record
`{error: "Failed to parse JSON", rawResponse: <text>}`; the
classification agent then returns a normal result built from it —
confidence 75 (the `result.confidence || 75` default), no conflict
marker — and the exception is never propagated to the caller. -/
theorem c7_parse_failure_result (raw : String) :
    cleanAnthropicResponse none raw = errorRecord raw ∧
    (runClassificationAgent (Outcome.ok none raw)).confidence = 75 ∧
    (runClassificationAgent (Outcome.ok none raw)).conflicts = none ∧
    (runClassificationAgent (Outcome.ok none raw)).extractedData = errorRecord raw :=
  ⟨rfl, rfl, rfl, rfl⟩

/-! ### Claim C8 — retries and stage completeness -/

/-- Claim C8 (counterexample): the classification agent's configured
retry budget is 2, yet an invocation whose backend call fails performs
exactly ONE backend call — no retry, no backoff — before returning the
confidence-30 fallback. -/
theorem c8_counterexample :
    (getAgentConfig "classification_agent").map (fun c => c.maxRetries) = some 2 ∧
    systemRetryPolicy.maxRetries = 3 ∧
    backendCallsPerInvocation Outcome.err = 1 ∧
    (runClassificationAgent Outcome.err).confidence = 30 :=
  ⟨rfl, rfl, rfl, rfl⟩

/-- Claim C8 (amended): the configured retry budgets are never applied —
each invocation makes exactly one backend call for every outcome — but
the fallback isolation does hold: a Stage-1 run whose classification
call fails still returns exactly 3 results (2 real, 1 fallback with the
fixed confidence 30 and a conflict marker), so the run never fails
outright because one agent failed. -/
theorem c8_no_retry_but_full_stage (o : Outcome) (o2 : Outcome) (fileName : String)
    (isPdf : Bool) :
    backendCallsPerInvocation o = 1 ∧
    (runIteration1_BaseAnalysis Outcome.err o2 fileName isPdf).agentResults.length = 3 ∧
    (runIteration1_BaseAnalysis Outcome.err o2 fileName isPdf).agentResults =
      [runClassificationAgent Outcome.err, runStructuralExtractionAgent o2 isPdf,
        runMetadataAgent fileName] ∧
    (runClassificationAgent Outcome.err).confidence = 30 ∧
    (runClassificationAgent Outcome.err).conflicts = some ["Classification failed"] :=
  ⟨rfl, rfl, rfl, rfl, rfl⟩

/-! ### Claim C9 — per-agent metrics recurrence -/

/-- One failed call (confidence argument 30) followed by one successful
call of confidence 80. -/
def c9calls : List CallRecord :=
  [{ success := false, confidence := 30, time := 100 },
   { success := true, confidence := 80, time := 50 }]

/-- Claim C9 (counterexample): two independent violations.  (a) The
claim's own cited agent never records: an invocation of
`runArgentineFiscalAgent` — successful or failed — performs zero
`recordAgentExecution` calls, so its metrics stay at the initial record
(`executions = 0`, `successRate = 100`) and no update happens at all.
(b) Even for a recording agent, after a failure followed by a success
of confidence 80 the mean over successful calls is 80, but the code's
running average is (0·1 + 80)/2 = 40 — the recurrence divides by the
TOTAL execution count, failures included. -/
theorem c9_counterexample :
    recordCallsPerInvocation "argentina_fiscal_agent" Outcome.err = 0 ∧
    recordCallsPerInvocation "cross_validation_agent" Outcome.err = 0 ∧
    (foldCalls []).executions = 0 ∧
    (foldCalls []).successRate = 100 ∧
    (foldCalls c9calls).averageConfidence = 40 ∧
    ¬((foldCalls c9calls).averageConfidence = 80) ∧
    (foldCalls c9calls).executions = 2 ∧
    (foldCalls c9calls).errorCount = 1 := by
  have h : (foldCalls c9calls).averageConfidence = 40 := by
    norm_num [foldCalls, c9calls, recordAgentExecution, initialAgentMetrics]
  refine ⟨rfl, rfl, rfl, rfl, h, ?_, rfl, rfl⟩
  rw [h]
  norm_num

/-- Claim C9 (amended): only the classification and
structural-extraction agents record metrics — exactly one
`recordAgentExecution` call per invocation, successful or failed; the
metadata, fiscal, trade, conflict-resolution and cross-validation
agents perform no recording call, so their metrics never change from
the initial record.  For the sequence of calls that IS recorded for an
agent: the execution count, error count and success rate
`(executions − errors) / executions × 100` are as specified, and the
running average confidence equals the mean over the recorded calls only
when NO recorded call has failed (on a failed call it is left
unchanged, but later successful updates divide by the total execution
count including failures, as the counterexample shows). -/
theorem c9_metrics_recurrence (cs : List CallRecord) (hne : cs ≠ []) :
    (∀ o : Outcome,
      recordCallsPerInvocation "classification_agent" o = 1 ∧
      recordCallsPerInvocation "structural_extraction_agent" o = 1 ∧
      recordCallsPerInvocation "metadata_agent" o = 0 ∧
      recordCallsPerInvocation "argentina_fiscal_agent" o = 0 ∧
      recordCallsPerInvocation "international_trade_agent" o = 0 ∧
      recordCallsPerInvocation "conflict_resolution_agent" o = 0 ∧
      recordCallsPerInvocation "cross_validation_agent" o = 0)
    ∧ ((foldCalls cs).executions = cs.length ∧
      (foldCalls cs).errorCount = countFailures cs ∧
      (foldCalls cs).successRate =
        (((cs.length : ℚ) - (countFailures cs : ℚ)) / (cs.length : ℚ)) * 100)
    ∧ ((∀ c ∈ cs, c.success = true) →
        (foldCalls cs).averageConfidence =
          (cs.map fun c => c.confidence).sum / (cs.length : ℚ)) := by
  have hexec : (foldCalls cs).executions = cs.length := by
    unfold foldCalls
    rw [foldl_record_executions]
    simp [initialAgentMetrics]
  have herr : (foldCalls cs).errorCount = countFailures cs := by
    unfold foldCalls
    rw [foldl_record_errorCount]
    simp [initialAgentMetrics]
  refine ⟨fun o => ⟨rfl, rfl, rfl, rfl, rfl, rfl, rfl⟩, ⟨hexec, herr, ?_⟩, ?_⟩
  · obtain ⟨L, c, hcat⟩ := (List.eq_nil_or_concat cs).resolve_left hne
    subst hcat
    rw [List.concat_eq_append] at hexec herr ⊢
    have h3 : (foldCalls (L ++ [c])).successRate =
        (((foldCalls (L ++ [c])).executions : ℚ) - ((foldCalls (L ++ [c])).errorCount : ℚ)) /
          ((foldCalls (L ++ [c])).executions : ℚ) * 100 := by
      unfold foldCalls
      rw [List.foldl_append]
      exact recordAgentExecution_successRate _ _ _ _
    rw [h3, hexec, herr]
  · intro hall
    have h := foldl_record_avgConf cs initialAgentMetrics hall
    simp [initialAgentMetrics] at h
    have hlen : ((cs.length : ℕ) : ℚ) ≠ 0 := by
      have h0 : cs.length ≠ 0 := fun hx => hne (List.length_eq_zero.mp hx)
      exact_mod_cast h0
    rw [eq_div_iff hlen]
    exact h

/-- Two successful calls of confidence 80 and 90 used to witness C9. -/
def c9callsW : List CallRecord :=
  [{ success := true, confidence := 80, time := 50 },
   { success := true, confidence := 90, time := 70 }]

/-- Witness for C9: with no failures the running average is the mean of
the successful calls. -/
theorem c9_metrics_recurrence_witness :
    (foldCalls c9callsW).averageConfidence =
      (c9callsW.map fun c => c.confidence).sum / (c9callsW.length : ℚ) :=
  (c9_metrics_recurrence c9callsW (List.cons_ne_nil _ _)).2.2 (by decide)
